import Mathlib

/-!
Verification of the Lucy chat interface
(`src/features/lucy/components/lucy-chat-interface.tsx`).

The file shallowly embeds the client-side conversation engine: the
message timeline and send cycle, attachment encoding, the asset-gallery
cache refresh, and the cinema-mode playback sequencer.  Pure fragments of
the component become Lean functions; React state updates become explicit
state passing; the single-threaded event-loop interleavings relevant to
the properties (backend responses, file-read completions) are made
explicit parameters.

The `useLucyChat` hook (the SessionStore / MessageDispatcher behind
`sendUserMessage`, `startNewChat`, …) is not among the source files, only
its caller is; those definitions are modelled from the specification and
are marked `Modelled from the spec:` in their doc comments.
-/

namespace Lucy

/-- Asset type enum, from the `Asset` interface in the source
(`type: 'image' | 'video' | 'audio'`). -/
inductive AssetType where
  | image
  | video
  | audio
deriving DecidableEq

/-- The `Asset` record, from the `Asset` interface in the source.
`cost: number` is modelled as `Int`, `createdAt: Date` as a `Nat`
timestamp; `url`/`prompt` are nullable in the source. -/
structure Asset where
  id : String
  type : AssetType
  url : Option String
  prompt : Option String
  cost : Int
  model : String
  createdAt : Nat
deriving DecidableEq

/-- Attachment kind, from the attachment state
(`type: 'image' | 'audio'`). -/
inductive AttKind where
  | image
  | audio
deriving DecidableEq

/-- A pending attachment record, from the `attachments` state:
`{ data: string; mimeType: string; type: 'image' | 'audio' }`. -/
structure Attachment where
  data : String
  mimeType : String
  type : AttKind
deriving DecidableEq

/-- A tool call carried by a model message (opaque to this core). -/
structure ToolCall where
  name : String
  args : String
deriving DecidableEq

/-- Message role (`role: 'user' | 'model'`). -/
inductive Role where
  | user
  | model
deriving DecidableEq

/-- A timeline message, from the message shape passed to `ChatMessage`:
`{id, role, text, attachments, toolCalls, isLoading, isError}`. -/
structure Message where
  id : Nat
  role : Role
  text : String
  attachments : List Attachment
  toolCalls : List ToolCall
  isLoading : Bool
  isError : Bool
deriving DecidableEq

/-! ## Asset gallery refresh (`loadAssets`, source lines 67–72) -/

/-- Result of the `getAssets(limit)` backend action:
`{success: bool, assets?: Asset[]}`. -/
structure GetAssetsResult where
  success : Bool
  assets : Option (List Asset)

/-- Function `loadAssets`, source lines 67–72: the new cached asset list after a
refresh.  `if (result.success && result.assets) setAssets(result.assets)`
— the cache is replaced only when the call succeeded and a list is
present (a present empty array is truthy in JS and does replace);
otherwise the previous cache is kept. -/
def loadAssets (result : GetAssetsResult) (current : List Asset) : List Asset :=
  if result.success then
    match result.assets with
    | some fetched => fetched
    | none => current
  else current

/-! ## Cinema mode (`handleCinemaMode` lines 124–130, `CinemaMode`
component lines 371–448) -/

/-- Cinema playlist data from `getCinemaData()`:
`{videos: Asset[], audio: Asset | null}`. -/
structure CinemaData where
  videos : List Asset
  audio : Option Asset

/-- Result of the `getCinemaData()` backend action. -/
structure GetCinemaResult where
  success : Bool
  data : Option CinemaData

/-- Function `handleCinemaMode`, source lines 124–130: cinema mode is entered
(`setShowCinema(true)` with `setCinemaData(result.data)`) exactly when
the backend call succeeded and returned data; the rendered modal is
`showCinema && cinemaData && <CinemaMode …/>`, so the entered playlist is
`some data` in that case and `none` otherwise. -/
def handleCinemaMode (result : GetCinemaResult) : Option CinemaData :=
  if result.success then result.data else none

/-- Sequencer state of the spec's state machine: `Idle` or
`Playing(index)`. -/
inductive CinemaState where
  | idle
  | playing (index : Nat)
deriving DecidableEq

/-- The `CinemaMode` component's observable playback state, source lines
402–406: `if (videos.length === 0) return null;` — with an empty playlist
the component renders nothing and no video element exists to play
(Idle); otherwise it renders and plays the video at `currentIndex`
(Playing). -/
def cinemaSequencerState (videos : List Asset) (currentIndex : Nat) : CinemaState :=
  if videos.length = 0 then CinemaState.idle else CinemaState.playing currentIndex

/-- What a cinema-mode entry surfaces on screen, composing
`handleCinemaMode` with the `CinemaMode` render guard: `none` when
nothing is rendered at all. -/
def cinemaSurfaced (result : GetCinemaResult) : Option CinemaState :=
  match handleCinemaMode result with
  | some d =>
      match cinemaSequencerState d.videos 0 with
      | CinemaState.idle => none
      | s => some s
  | none => none

/-- Function `handleVideoEnd`, source lines 386–393: on a "current video ended"
event, `if (currentIndex < videos.length - 1)` advance by one, else loop
back to index 0. -/
def handleVideoEnd (videos : List Asset) (currentIndex : Nat) : Nat :=
  if currentIndex < videos.length - 1 then currentIndex + 1 else 0

/-! ## Attachment encoding (`handleFileSelect`, source lines 96–118) -/

/-- A selected file as the component sees it: its mime type
(`file.type`) and the outcome of `FileReader.readAsDataURL` —
`some dataUrl` when the source bytes are readable, `none` when the read
fails (the component installs no `onerror` handler, so `onload` simply
never fires for such a file). -/
structure JsFile where
  mime : String
  readResult : Option String
deriving DecidableEq

/-- The expression `(reader.result as string).split(',')[1]`, source line 103: the
base64 payload of a data URL. -/
def dataUrlBase64 (s : String) : String :=
  (s.splitOn ",").getD 1 ""

/-- The encode operation a single selected file performs, source lines
101–111: when the read completes, classify
`file.type.startsWith('image/')` as `image`, anything else as `audio`,
and build the attachment record; when the read fails no record is ever
produced. -/
def encodeFile (f : JsFile) : Option Attachment :=
  match f.readResult with
  | some res =>
      some { data := dataUrlBase64 res
             mimeType := f.mime
             type := if f.mime.startsWith "image/" then AttKind.image else AttKind.audio }
  | none => none

/-- The `reader.onload` completion step for one file, source lines
102–110: `setAttachments(prev => [...prev, record])` appends the encoded
record to the end of the pending list; a failed read fires no completion
and leaves the list untouched. -/
def handleFileCompletion (pending : List Attachment) (f : JsFile) : List Attachment :=
  match encodeFile f with
  | some a => pending ++ [a]
  | none => pending

/-- Delivery of the independent per-file read completions in the order
the event loop fires them (`order`).  `handleFileSelect` starts one
`FileReader` per selected file; each readable file's `onload` appends on
completion, so the pending list is folded over the completion order. -/
def deliverCompletions (pending : List Attachment) (order : List JsFile) : List Attachment :=
  order.foldl handleFileCompletion pending

/-! ## Session store and message dispatcher

The `useLucyChat` hook holding these lives outside the provided source
files; the definitions below are modelled from the specification
(§4.2 SessionStore, §4.3 MessageDispatcher, §5 stale-response guard). -/

/-- Modelled from the spec: the successful payload of the
`sendUserMessage` backend action — the resolved model message's text,
tool calls and attachments (§4.3 step 4).  A failed round trip is
`Option.none` at the use sites. -/
structure ModelReply where
  text : String
  toolCalls : List ToolCall
  attachments : List Attachment
deriving DecidableEq

/-- Modelled from the spec: the generic, retry-suggesting user-facing
error text a failed send resolves the placeholder with (§4.3 step 5,
§7 SendFailure: "never a raw error string"). -/
def sendFailureText : String :=
  "Something went wrong. Please try again."

/-- Modelled from the spec: SessionStore (§4.2) — the canonical holder of
the current session's identity and ordered message timeline.  `nextId`
generates the stable unique message ids `appendMessage` assigns. -/
structure SessionStore where
  sessionId : Nat
  messages : List Message
  nextId : Nat
deriving DecidableEq

/-- Modelled from the spec: a fresh session (`ChatSession` created on
"new chat") with an empty timeline. -/
def newSession (sid : Nat) : SessionStore :=
  { sessionId := sid, messages := [], nextId := 0 }

/-- Modelled from the spec: `reset()` (§4.2) clears the timeline and
assigns a new session identity. -/
def reset (st : SessionStore) : SessionStore :=
  { sessionId := st.sessionId + 1, messages := [], nextId := st.nextId }

/-- Modelled from the spec: `updatePlaceholder(id, patch)` (§4.2)
transitions the loading message identified by `id` to its final state;
messages that are not that placeholder are untouched. -/
def updatePlaceholder (msgs : List Message) (pid : Nat) (patch : Message → Message) :
    List Message :=
  msgs.map fun m => if m.id = pid ∧ m.isLoading = true then patch m else m

/-- Modelled from the spec: how a placeholder is resolved (§4.3 steps
4–5).  On success it receives the returned text/toolCalls/attachments;
on failure it keeps `isError = true` with the generic error text.  Either
way `isLoading` is cleared. -/
def resolvePatch (resp : Option ModelReply) (m : Message) : Message :=
  match resp with
  | some r =>
      { m with text := r.text, toolCalls := r.toolCalls,
               attachments := r.attachments, isLoading := false, isError := false }
  | none =>
      { m with text := sendFailureText, isLoading := false, isError := true }

/-- Context captured at send time: the session id current when the send
was issued (§5: compared against the current id on arrival) and the id of
the appended placeholder. -/
structure SendCtx where
  sessionId : Nat
  placeholderId : Nat
deriving DecidableEq

/-- Modelled from the spec: the synchronous first half of
`MessageDispatcher.send` (§4.3 steps 2–3) — append the optimistic user
message, then the loading placeholder for the assistant turn, and issue
the backend call carrying the session id captured now. -/
def sendPhase1 (st : SessionStore) (text : String) (atts : List Attachment) :
    SessionStore × SendCtx :=
  ({ st with
      messages := st.messages ++
        [{ id := st.nextId, role := Role.user, text := text, attachments := atts,
           toolCalls := [], isLoading := false, isError := false },
         { id := st.nextId + 1, role := Role.model, text := "", attachments := [],
           toolCalls := [], isLoading := true, isError := false }]
      nextId := st.nextId + 2 },
   { sessionId := st.sessionId, placeholderId := st.nextId + 1 })

/-- Modelled from the spec: arrival of the backend response (§4.3 steps
4–5 with the §5 stale-response guard): if the session id captured at send
time no longer matches the current session id the response is discarded;
otherwise the placeholder is resolved. -/
def applyResponse (st : SessionStore) (ctx : SendCtx) (resp : Option ModelReply) :
    SessionStore :=
  if ctx.sessionId = st.sessionId then
    { st with messages := updatePlaceholder st.messages ctx.placeholderId (resolvePatch resp) }
  else st

/-- One send issued and settled with no interleaved session change: the
whole cycle of `send` for one user turn. -/
structure SendInput where
  text : String
  atts : List Attachment
  resp : Option ModelReply

/-- A complete, uninterrupted send cycle. -/
def fullSend (st : SessionStore) (inp : SendInput) : SessionStore :=
  applyResponse (sendPhase1 st inp.text inp.atts).1 (sendPhase1 st inp.text inp.atts).2 inp.resp

/-- Sends issued one at a time, each started only after the previous one
settled (the single-flight gate of §4.3). -/
def runSends (st : SessionStore) : List SendInput → SessionStore
  | [] => st
  | inp :: rest => runSends (fullSend st inp) rest

/-- The text a settled send leaves on its model message. -/
def replyText (resp : Option ModelReply) : String :=
  match resp with
  | some r => r.text
  | none => sendFailureText

/-! ## The send handler (`handleSend`, source lines 74–87) -/

/-- The JS whitespace characters relevant to `String.prototype.trim`
(ASCII WhiteSpace and line terminators; the further Unicode space points
of the full JS set are omitted, no claim depends on them). -/
def isJsWhitespace (c : Char) : Bool :=
  c = ' ' || c = '\t' || c = '\n' || c = '\r' || c = '\x0b' || c = '\x0c'

/-- JS `inputValue.trim()`: strip leading and trailing whitespace. -/
def jsTrim (s : String) : String :=
  String.mk (((s.toList.dropWhile isJsWhitespace).reverse.dropWhile isJsWhitespace).reverse)

/-- The primitive steps of one `handleSend` invocation, in the order the
single-threaded event loop performs them (source lines 74–87 plus the
dispatcher steps of §4.3 behind `sendUserMessage`). -/
inductive Ev where
  | clearInput
  | clearAttachments
  | appendUser
  | appendPlaceholder
  | backendCall
  | resolvePlaceholder
  | scheduleAssetRefresh
deriving DecidableEq

/-- The dispatcher's part of the cycle with its event trace: append user
message, append placeholder, issue the backend call, resolve the
placeholder on settlement. -/
def dispatchSend (st : SessionStore) (text : String) (atts : List Attachment)
    (resp : Option ModelReply) : SessionStore × List Ev :=
  (applyResponse (sendPhase1 st text atts).1 (sendPhase1 st text atts).2 resp,
   [Ev.appendUser, Ev.appendPlaceholder, Ev.backendCall, Ev.resolvePlaceholder])

/-- The component state `handleSend` reads and writes: the text input,
the pending attachments, and the session store behind `useLucyChat`. -/
structure UIState where
  inputValue : String
  attachments : List Attachment
  store : SessionStore
deriving DecidableEq

/-- Function `handleSend`, source lines 74–87.
`if (!inputValue.trim() && attachments.length === 0) return;` — a no-op
when the trimmed text is empty and no attachment is pending.  Otherwise
the text and attachments are captured, the input and pending list are
cleared, `sendUserMessage(text, atts)` is awaited, and the deferred asset
refresh is scheduled (`setTimeout(loadAssets, 2000)`).  Returns the new
state and the event trace of the invocation. -/
def handleSend (resp : Option ModelReply) (st : UIState) : UIState × List Ev :=
  if (jsTrim st.inputValue == "") && (st.attachments.length == 0) then (st, [])
  else
    let text := st.inputValue
    let atts := st.attachments
    let cleared : UIState := { st with inputValue := "", attachments := [] }
    let d := dispatchSend cleared.store text atts resp
    ({ cleared with store := d.1 },
     [Ev.clearInput, Ev.clearAttachments] ++ d.2 ++ [Ev.scheduleAssetRefresh])

/-! ## Concrete fixtures used by the witnesses -/

/-- A sample video asset. -/
def assetA : Asset :=
  { id := "a", type := AssetType.video, url := some "https://cdn/a.mp4",
    prompt := some "a cat", cost := 1, model := "veo", createdAt := 1 }

/-- A second sample video asset. -/
def assetB : Asset :=
  { id := "b", type := AssetType.video, url := some "https://cdn/b.mp4",
    prompt := some "a dog", cost := 1, model := "veo", createdAt := 2 }

/-- A third sample video asset. -/
def assetC : Asset :=
  { id := "c", type := AssetType.video, url := some "https://cdn/c.mp4",
    prompt := some "a bird", cost := 1, model := "veo", createdAt := 3 }

/-- A readable image file fixture. -/
def fileA : JsFile :=
  { mime := "image/png", readResult := some "data:image/png;base64,AAAA" }

/-- A readable audio file fixture. -/
def fileB : JsFile :=
  { mime := "audio/mpeg", readResult := some "data:audio/mpeg;base64,BBBB" }

/-- An unreadable file fixture (its read never completes). -/
def fileBad : JsFile :=
  { mime := "image/png", readResult := none }

/-!
# Theorems

Each claim of the specification is settled by one theorem below; a
theorem with hypotheses is accompanied by a witness instantiating it at
the fixtures above.
-/

/-- If a message id is distinct from the placeholder id everywhere in the
list, `updatePlaceholder` is the identity. -/
theorem updatePlaceholder_skip (msgs : List Message) (pid : Nat)
    (patch : Message → Message) (h : ∀ m ∈ msgs, m.id ≠ pid) :
    updatePlaceholder msgs pid patch = msgs := by
  induction msgs with
  | nil => rfl
  | cons m rest ih =>
    have hm : ¬(m.id = pid ∧ m.isLoading = true) := fun hc => h m (by simp) hc.1
    have hrest := ih fun x hx => h x (by simp [hx])
    simp only [updatePlaceholder, List.map_cons, if_neg hm]
    simpa [updatePlaceholder] using hrest

/-- The `handleVideoEnd` advance rule as modular arithmetic. -/
theorem handleVideoEnd_eq_mod (videos : List Asset) (i : Nat)
    (hi : i < videos.length) :
    handleVideoEnd videos i = (i + 1) % videos.length := by
  unfold handleVideoEnd
  by_cases h : i < videos.length - 1
  · rw [if_pos h, Nat.mod_eq_of_lt (by omega)]
  · rw [if_neg h]
    have hEq : i = videos.length - 1 := by omega
    subst hEq
    have h1 : videos.length - 1 + 1 = videos.length := by omega
    rw [h1, Nat.mod_self]

/-- Iterating the advance rule from index 0 walks through the residues
modulo the playlist length. -/
theorem handleVideoEnd_iterate (videos : List Asset) (hn : videos ≠ []) :
    ∀ k, k ≤ videos.length → (handleVideoEnd videos)^[k] 0 = k % videos.length := by
  intro k
  induction k with
  | zero => intro _; simp
  | succ k ih =>
    intro hk
    have hlen : 0 < videos.length := List.length_pos.mpr hn
    rw [Function.iterate_succ_apply', ih (by omega),
      handleVideoEnd_eq_mod videos _ (Nat.mod_lt _ hlen), Nat.mod_add_mod]

/-- Claim C3: for every non-empty video playlist and every in-range
current index, a video-ended event advances the index by 1 modulo the
playlist length, and from index 0 exactly `videos.length` consecutive
end-events return the index to 0. -/
theorem videoEnd_advances_mod (videos : List Asset) (i : Nat)
    (hn : videos ≠ []) (hi : i < videos.length) :
    handleVideoEnd videos i = (i + 1) % videos.length ∧
    (handleVideoEnd videos)^[videos.length] 0 = 0 := by
  refine ⟨handleVideoEnd_eq_mod videos i hi, ?_⟩
  rw [handleVideoEnd_iterate videos hn videos.length le_rfl, Nat.mod_self]

/-- Witness for C3 at the three-video playlist `[A, B, C]`: one end-event
from index 0 goes to 1 = (0+1) mod 3, and three end-events from 0 return
to 0 (the index sequence being 1, 2, 0). -/
theorem videoEnd_advances_mod_witness :
    handleVideoEnd [assetA, assetB, assetC] 0 = (0 + 1) % [assetA, assetB, assetC].length ∧
    (handleVideoEnd [assetA, assetB, assetC])^[[assetA, assetB, assetC].length] 0 = 0 :=
  videoEnd_advances_mod [assetA, assetB, assetC] 0 (by decide) (by decide)

/-- Claim C4: a cinema-mode entry whose playlist of videos is empty never
reaches the Playing state — the sequencer stays Idle at every index and
nothing is surfaced on screen. -/
theorem cinema_empty_playlist_idle (result : GetCinemaResult) (d : CinemaData) (i : Nat)
    (h1 : handleCinemaMode result = some d) (h2 : d.videos = []) :
    cinemaSurfaced result = none ∧ cinemaSequencerState d.videos i = CinemaState.idle := by
  constructor
  · unfold cinemaSurfaced
    rw [h1]
    simp [cinemaSequencerState, h2]
  · simp [cinemaSequencerState, h2]

/-- Witness for C4: a successful `getCinemaData` call returning an empty
video list surfaces nothing and the sequencer stays Idle. -/
theorem cinema_empty_playlist_idle_witness :
    cinemaSurfaced { success := true, data := some { videos := [], audio := none } } = none ∧
    cinemaSequencerState ({ videos := [], audio := none } : CinemaData).videos 0 =
      CinemaState.idle :=
  cinema_empty_playlist_idle
    { success := true, data := some { videos := [], audio := none } }
    { videos := [], audio := none } 0 rfl rfl

/-- Claim C6: an asset refresh replaces the cached list wholesale when
`getAssets` succeeds with a list, and retains the previous cache
unchanged when it fails. -/
theorem assets_refresh_cache (r : GetAssetsResult) (cache : List Asset) :
    (∀ fetched, r.success = true → r.assets = some fetched →
      loadAssets r cache = fetched) ∧
    (r.success = false → loadAssets r cache = cache) := by
  constructor
  · intro fetched hs ha
    simp [loadAssets, hs, ha]
  · intro hs
    simp [loadAssets, hs]

/-- Witness for C6: a successful refresh replaces the cache, a failed one
leaves it untouched. -/
theorem assets_refresh_cache_witness :
    loadAssets { success := true, assets := some [assetA] } [assetB] = [assetA] ∧
    loadAssets { success := false, assets := none } [assetB] = [assetB] :=
  ⟨(assets_refresh_cache { success := true, assets := some [assetA] } [assetB]).1
      [assetA] rfl rfl,
   (assets_refresh_cache { success := false, assets := none } [assetB]).2 rfl⟩

/-- Claim C5: a send whose text trims to empty and whose attachment list
is empty is a complete no-op — the state (timeline included) is unchanged
and no step, in particular no backend call, is performed. -/
theorem empty_send_noop (resp : Option ModelReply) (st : UIState)
    (h1 : jsTrim st.inputValue = "") (h2 : st.attachments = []) :
    handleSend resp st = (st, []) := by
  simp [handleSend, h1, h2]

/-- Witness for C5: sending whitespace-only text with no attachments
changes nothing. -/
theorem empty_send_noop_witness :
    handleSend none { inputValue := "  ", attachments := [], store := newSession 0 } =
      ({ inputValue := "  ", attachments := [], store := newSession 0 }, []) :=
  empty_send_noop none
    { inputValue := "  ", attachments := [], store := newSession 0 } (by decide) rfl

/-- Claim C8: a file whose source bytes are unreadable fails to encode
(no attachment record is ever produced) and its completion step leaves
the pending-attachments list exactly as it was. -/
theorem unreadable_file_dropped (f : JsFile) (pending : List Attachment)
    (h : f.readResult = none) :
    encodeFile f = none ∧ handleFileCompletion pending f = pending := by
  have he : encodeFile f = none := by simp [encodeFile, h]
  exact ⟨he, by simp [handleFileCompletion, he]⟩

/-- Witness for C8: the unreadable fixture adds nothing to a pending list
that already holds one attachment. -/
theorem unreadable_file_dropped_witness :
    encodeFile fileBad = none ∧
    handleFileCompletion [{ data := "AAAA", mimeType := "image/png", type := AttKind.image }]
      fileBad = [{ data := "AAAA", mimeType := "image/png", type := AttKind.image }] :=
  unreadable_file_dropped fileBad
    [{ data := "AAAA", mimeType := "image/png", type := AttKind.image }] rfl

/-- Folding the completion steps appends exactly the encoded records, in
delivery order, to the end of the pending list. -/
theorem deliverCompletions_eq (order : List JsFile) (pending : List Attachment) :
    deliverCompletions pending order = pending ++ order.filterMap encodeFile := by
  induction order generalizing pending with
  | nil => simp [deliverCompletions]
  | cons f rest ih =>
    show deliverCompletions (handleFileCompletion pending f) rest = _
    rw [ih]
    cases hf : encodeFile f <;> simp [handleFileCompletion, hf]

/-- Claim C9: when several files are selected together, each one encodes
independently; the records land at the end of the pending-attachments
list in the order the encodes complete (any permutation of the readable
files), and as a set they are exactly the encodes of the readable
selected files. -/
theorem attachments_completion_order (files order : List JsFile) (pending : List Attachment)
    (h : List.Perm order (files.filter fun f => f.readResult.isSome)) :
    deliverCompletions pending order = pending ++ order.filterMap encodeFile ∧
    List.Perm (order.filterMap encodeFile)
      ((files.filter fun f => f.readResult.isSome).filterMap encodeFile) :=
  ⟨deliverCompletions_eq order pending, h.filterMap encodeFile⟩

/-- Witness for C9: files selected in the order `[A, B]` whose encodes
complete in the order `[B, A]` yield the pending list `[encode B,
encode A]` — completion order, not selection order. -/
theorem attachments_completion_order_witness :
    deliverCompletions [] [fileB, fileA] = [] ++ [fileB, fileA].filterMap encodeFile ∧
    List.Perm ([fileB, fileA].filterMap encodeFile)
      (([fileA, fileB].filter fun f => f.readResult.isSome).filterMap encodeFile) :=
  attachments_completion_order [fileA, fileB] [fileB, fileA] [] (by decide)

/-- Claim C10: a send that passes the non-empty guard always clears the
text input and the pending-attachments list before the backend call is
issued, and never restores them: whatever the backend outcome, the
post-state has empty input and no pending attachments. -/
theorem send_clears_input (resp : Option ModelReply) (st : UIState)
    (h : ((jsTrim st.inputValue == "") && (st.attachments.length == 0)) = false) :
    (handleSend resp st).1.inputValue = "" ∧
    (handleSend resp st).1.attachments = [] ∧
    (handleSend resp st).2.indexOf Ev.clearInput <
      (handleSend resp st).2.indexOf Ev.backendCall ∧
    (handleSend resp st).2.indexOf Ev.clearAttachments <
      (handleSend resp st).2.indexOf Ev.backendCall := by
  have ht : (handleSend resp st).2 =
      [Ev.clearInput, Ev.clearAttachments, Ev.appendUser, Ev.appendPlaceholder,
       Ev.backendCall, Ev.resolvePlaceholder, Ev.scheduleAssetRefresh] := by
    simp [handleSend, h, dispatchSend]
  refine ⟨?_, ?_, ?_, ?_⟩
  · simp [handleSend, h]
  · simp [handleSend, h]
  · rw [ht]; decide
  · rw [ht]; decide

/-- Witness for C10: sending the text "hi" clears the input and the
pending list before the backend call, on success and on failure alike. -/
theorem send_clears_input_witness :
    (handleSend none { inputValue := "hi", attachments := [], store := newSession 0 }).1.inputValue = "" ∧
    (handleSend none { inputValue := "hi", attachments := [], store := newSession 0 }).1.attachments = [] ∧
    (handleSend none { inputValue := "hi", attachments := [], store := newSession 0 }).2.indexOf Ev.clearInput <
      (handleSend none { inputValue := "hi", attachments := [], store := newSession 0 }).2.indexOf Ev.backendCall ∧
    (handleSend none { inputValue := "hi", attachments := [], store := newSession 0 }).2.indexOf Ev.clearAttachments <
      (handleSend none { inputValue := "hi", attachments := [], store := newSession 0 }).2.indexOf Ev.backendCall :=
  send_clears_input none
    { inputValue := "hi", attachments := [], store := newSession 0 } (by decide)

/-- Claim C7: within one send that passes the guard, the user message is
appended before the placeholder, and the placeholder is resolved before
the deferred asset-gallery refresh is scheduled. -/
theorem send_event_order (resp : Option ModelReply) (st : UIState)
    (h : ((jsTrim st.inputValue == "") && (st.attachments.length == 0)) = false) :
    (handleSend resp st).2.indexOf Ev.appendUser <
      (handleSend resp st).2.indexOf Ev.appendPlaceholder ∧
    (handleSend resp st).2.indexOf Ev.resolvePlaceholder <
      (handleSend resp st).2.indexOf Ev.scheduleAssetRefresh := by
  have ht : (handleSend resp st).2 =
      [Ev.clearInput, Ev.clearAttachments, Ev.appendUser, Ev.appendPlaceholder,
       Ev.backendCall, Ev.resolvePlaceholder, Ev.scheduleAssetRefresh] := by
    simp [handleSend, h, dispatchSend]
  rw [ht]
  exact ⟨by decide, by decide⟩

/-- Witness for C7: for the send of "hi", the user message precedes the
placeholder and the resolution precedes the deferred refresh. -/
theorem send_event_order_witness :
    (handleSend none { inputValue := "hi", attachments := [], store := newSession 1 }).2.indexOf Ev.appendUser <
      (handleSend none { inputValue := "hi", attachments := [], store := newSession 1 }).2.indexOf Ev.appendPlaceholder ∧
    (handleSend none { inputValue := "hi", attachments := [], store := newSession 1 }).2.indexOf Ev.resolvePlaceholder <
      (handleSend none { inputValue := "hi", attachments := [], store := newSession 1 }).2.indexOf Ev.scheduleAssetRefresh :=
  send_event_order none
    { inputValue := "hi", attachments := [], store := newSession 1 } (by decide)

/-- A settled send never changes the session identity. -/
theorem fullSend_sessionId (st : SessionStore) (inp : SendInput) :
    (fullSend st inp).sessionId = st.sessionId := by
  unfold fullSend applyResponse
  split <;> simp [sendPhase1]

/-- A sequence of settled sends never changes the session identity. -/
theorem runSends_sessionId (st : SessionStore) (l : List SendInput) :
    (runSends st l).sessionId = st.sessionId := by
  induction l generalizing st with
  | nil => rfl
  | cons inp rest ih =>
    rw [show runSends st (inp :: rest) = runSends (fullSend st inp) rest from rfl,
      ih, fullSend_sessionId]

/-- Claim C1: a backend response whose send was issued before a `reset()`
arrives stale — its captured session id differs from the current one —
and is discarded: however many sends the new session has since settled,
its store (timeline included) is left exactly as it was. -/
theorem stale_response_discarded (st : SessionStore) (text : String)
    (atts : List Attachment) (resp : Option ModelReply) (l : List SendInput) :
    applyResponse (runSends (reset (sendPhase1 st text atts).1) l)
        (sendPhase1 st text atts).2 resp =
      runSends (reset (sendPhase1 st text atts).1) l := by
  unfold applyResponse
  rw [runSends_sessionId]
  have hcap : (sendPhase1 st text atts).2.sessionId = st.sessionId := rfl
  have hcur : (reset (sendPhase1 st text atts).1).sessionId = st.sessionId + 1 := rfl
  rw [hcap, hcur, if_neg (by omega)]

/-- Every message id already assigned lies below the id counter — the
invariant `appendMessage`'s id assignment maintains. -/
def IdsBelow (st : SessionStore) : Prop :=
  ∀ m ∈ st.messages, m.id < st.nextId

/-- Resolving a placeholder keeps its id. -/
theorem resolvePatch_id (resp : Option ModelReply) (m : Message) :
    (resolvePatch resp m).id = m.id := by
  cases resp <;> rfl

/-- A settled send advances the id counter by two. -/
theorem fullSend_nextId (st : SessionStore) (inp : SendInput) :
    (fullSend st inp).nextId = st.nextId + 2 := by
  unfold fullSend applyResponse
  split <;> simp [sendPhase1]

/-- Under the id invariant, a settled send appends exactly the user
message and the already-resolved model message. -/
theorem fullSend_messages (st : SessionStore) (inp : SendInput) (h : IdsBelow st) :
    (fullSend st inp).messages =
      st.messages ++
        [{ id := st.nextId, role := Role.user, text := inp.text, attachments := inp.atts,
           toolCalls := [], isLoading := false, isError := false },
         resolvePatch inp.resp
           { id := st.nextId + 1, role := Role.model, text := "", attachments := [],
             toolCalls := [], isLoading := true, isError := false }] := by
  have hskip : updatePlaceholder st.messages (st.nextId + 1) (resolvePatch inp.resp) =
      st.messages :=
    updatePlaceholder_skip _ _ _ fun m hm => by have := h m hm; omega
  have happ : ∀ (a b : List Message) (pid : Nat) (patch : Message → Message),
      updatePlaceholder (a ++ b) pid patch =
        updatePlaceholder a pid patch ++ updatePlaceholder b pid patch := by
    intro a b pid patch
    simp [updatePlaceholder]
  unfold fullSend applyResponse
  rw [if_pos (show (sendPhase1 st inp.text inp.atts).2.sessionId =
      (sendPhase1 st inp.text inp.atts).1.sessionId from rfl)]
  show updatePlaceholder
      (st.messages ++
        [{ id := st.nextId, role := Role.user, text := inp.text, attachments := inp.atts,
           toolCalls := [], isLoading := false, isError := false },
         { id := st.nextId + 1, role := Role.model, text := "", attachments := [],
           toolCalls := [], isLoading := true, isError := false }])
      (st.nextId + 1) (resolvePatch inp.resp) = _
  rw [happ, hskip]
  simp [updatePlaceholder]

/-- The id invariant is preserved by a settled send. -/
theorem fullSend_idsBelow (st : SessionStore) (inp : SendInput) (h : IdsBelow st) :
    IdsBelow (fullSend st inp) := by
  intro m hm
  rw [fullSend_messages st inp h] at hm
  rw [fullSend_nextId]
  rcases List.mem_append.mp hm with h1 | h2
  · have := h m h1; omega
  · simp only [List.mem_cons, List.not_mem_nil, or_false] at h2
    rcases h2 with rfl | rfl
    · show st.nextId < st.nextId + 2
      omega
    · rw [resolvePatch_id]
      show st.nextId + 1 < st.nextId + 2
      omega

/-- The timeline view (role, text, loading flag) of a sequence of settled
sends: each send contributes its user/model pair in order, after whatever
was already there. -/
theorem runSends_view (l : List SendInput) (st : SessionStore) (h : IdsBelow st) :
    (runSends st l).messages.map (fun m => (m.role, m.text, m.isLoading)) =
      st.messages.map (fun m => (m.role, m.text, m.isLoading)) ++
      (l.map fun inp =>
        [(Role.user, inp.text, false), (Role.model, replyText inp.resp, false)]).flatten := by
  induction l generalizing st with
  | nil => simp [runSends]
  | cons inp rest ih =>
    rw [show runSends st (inp :: rest) = runSends (fullSend st inp) rest from rfl,
      ih (fullSend st inp) (fullSend_idsBelow st inp h),
      fullSend_messages st inp h, List.map_append]
    cases hr : inp.resp <;> simp [resolvePatch, replyText, hr]

/-- Claim C2: sends issued one at a time on a fresh session leave a
timeline that is, in strict send order, the alternating user/model pairs
of the sends — the user messages carrying the sent texts — with no
loading placeholder remaining once all sends have settled. -/
theorem sends_alternate_no_loading (sid : Nat) (l : List SendInput) :
    (runSends (newSession sid) l).messages.map (fun m => (m.role, m.text, m.isLoading)) =
      (l.map fun inp =>
        [(Role.user, inp.text, false), (Role.model, replyText inp.resp, false)]).flatten := by
  have h : IdsBelow (newSession sid) := by
    intro m hm
    simp [newSession] at hm
  rw [runSends_view l (newSession sid) h]
  simp [newSession]

end Lucy
